import Mathlib

/-!
Shallow embedding of the `OnlineStatusManager` presence controller from
`src/index.js` of the Supabase Online Tracker library, together with proofs
about its retry wrapper, session lifecycle, heartbeat failure policy,
presence listing/counting and first-login tracking.

Timestamps are modelled as `Int` milliseconds.  Backend calls are modelled by
passing their outcomes in explicitly; observable side effects (backend calls,
console logs, configured callbacks) are recorded in an event list.
-/

/-- Errors that the manager's methods can raise: the "用户名不能为空" rejection
for a falsy username in `userLogin`, or an error surfaced from the backend. -/
inductive JsError where
  | invalidInput
  | backend (e : Nat)
  deriving Repr, DecidableEq

/-- Observable effects of a manager operation: console logs, backend calls and
invocations of configured callbacks (identified by the operation string the
source passes to `onError`). -/
inductive Event where
  | logWarn (msg : String)
  | logError (msg : String)
  | backendSelect (table : String)
  | backendUpdate (table : String)
  | backendUpsert (table : String) (username : String)
  | backendDeleteEq (table : String) (username : String)
  | errorCallback (operation : String)
  | heartbeatWrite (username : String)
  deriving Repr, DecidableEq

/-- Configuration of `OnlineStatusManager` after the constructor has applied
its defaults (`options.x || default`).  Callback options are modelled by a
`Bool` recording whether the callback was configured (the source guards each
invocation with `if (this.onError)` etc.). -/
structure Config where
  tableName : String := "online_users"
  heartbeatInterval : Nat := 30000
  inactiveTimeout : Int := 300000
  enableFirstLoginTracking : Bool := false
  userTable : String := "users"
  usernameField : String := "username"
  maxRetries : Nat := 3
  retryDelay : Nat := 1000
  hasOnError : Bool := false
  enableRealtime : Bool := false
  maxOnlineTime : Option Int := none
  warningTime : Option Int := none
  hasOnTimeWarning : Bool := false
  hasOnTimeLimit : Bool := false
  deriving Repr, DecidableEq

/-- Process-local runtime state of the manager: the fields set up by the
constructor (`heartbeatTimer`, `currentUsername`, `retryCount`,
`realtimeChannel`, `loginTime`, `timeLimitTimer`, `timeWarningTimer`) plus the
`_cleanupListeners` slot installed by `setupOfflineDetection`.  Timer and
channel handles are modelled by a `Bool` recording whether they are set. -/
structure ManagerState where
  currentUsername : Option String
  heartbeatTimer : Bool
  retryCount : Nat
  realtimeChannel : Bool
  loginTime : Option Int
  timeLimitTimer : Bool
  timeWarningTimer : Bool
  cleanupListeners : Bool
  deriving Repr, DecidableEq

/-- Runtime state right after the constructor: every handle null, counter 0. -/
def initState : ManagerState :=
  { currentUsername := none
    heartbeatTimer := false
    retryCount := 0
    realtimeChannel := false
    loginTime := none
    timeLimitTimer := false
    timeWarningTimer := false
    cleanupListeners := false }

/-- JavaScript truthiness of an optional numeric option, as tested by
`if (this.maxOnlineTime)` and `if (this.warningTime ...)`: null and 0 are
falsy. -/
def jsTruthyTime : Option Int → Bool
  | none => false
  | some t => t != 0

/-- JavaScript numeric coercion of a possibly-null number: `null` coerces to
`0` in arithmetic such as `Date.now() - this.loginTime`. -/
def jsCoerceNum : Option Int → Int
  | none => 0
  | some n => n

/-- Model of `stopHeartbeat`: clear the interval handle. -/
def stopHeartbeat (s : ManagerState) : ManagerState :=
  { s with heartbeatTimer := false }

/-- Model of `stopTimeLimitMonitor`: clear both one-shot timers and null out
`loginTime`. -/
def stopTimeLimitMonitor (s : ManagerState) : ManagerState :=
  { s with timeWarningTimer := false, timeLimitTimer := false, loginTime := none }

/-- Model of `startTimeLimitMonitor` called at absolute time `now`: it sets
`loginTime = Date.now()`, then calls `stopTimeLimitMonitor()` (which also
nulls `loginTime`), then arms the warning timer when `warningTime` and
`onTimeWarning` are both configured, and finally arms the limit timer. -/
def startTimeLimitMonitor (cfg : Config) (now : Int) (s : ManagerState) : ManagerState :=
  let s1 := { s with loginTime := some now }
  let s2 := stopTimeLimitMonitor s1
  let s3 := if jsTruthyTime cfg.warningTime && cfg.hasOnTimeWarning then
      { s2 with timeWarningTimer := true }
    else s2
  { s3 with timeLimitTimer := true }

/-- Argument the warning timer passes to `onTimeWarning` when it fires at
absolute time `tFire`: `this.maxOnlineTime - (Date.now() - this.loginTime)`,
with JavaScript coercing a null `loginTime` to `0`. -/
def warningTimeLeft (maxOnlineTime tFire : Int) (loginTime : Option Int) : Int :=
  maxOnlineTime - (tFire - jsCoerceNum loginTime)

/-- Model of `startRealtimeSubscription`: a no-op when already subscribed,
otherwise it installs the channel handle. -/
def startRealtimeSubscription (s : ManagerState) : ManagerState :=
  if s.realtimeChannel then s else { s with realtimeChannel := true }

/-- Model of `stopRealtimeSubscription`: remove the channel handle if set. -/
def stopRealtimeSubscription (s : ManagerState) : ManagerState :=
  if s.realtimeChannel then { s with realtimeChannel := false } else s

/-- Model of `destroy`: stop the heartbeat, the realtime subscription and the
time-limit monitor, and remove the window/document listeners. -/
def destroy (s : ManagerState) : ManagerState :=
  let s1 := stopHeartbeat s
  let s2 := stopRealtimeSubscription s1
  let s3 := stopTimeLimitMonitor s2
  { s3 with cleanupListeners := false }

/-- Trace of one call to the `_retryOperation` wrapper: its final outcome, how
many times the wrapped function was attempted, the backoff delays slept
between consecutive attempts, and the errors passed to the `onError`
callback. -/
structure RetryTrace (ε α : Type) where
  result : Except ε α
  attempts : Nat
  delays : List Nat
  errorCalls : List ε

/-- Recursion core of `_retryOperation`.  `fuel` counts the attempts still
allowed after the current one, so the current attempt index is
`mr - fuel`: at `fuel = 0` the loop is on its final attempt (`attempt = mr`,
where failure invokes `onError` and the loop then throws `lastError`), and at
`fuel + 1` a failure sleeps `retryDelay * 2 ^ attempt` and retries. -/
def retryGo {ε α : Type} (mr rd : Nat) (fn : Nat → Except ε α) : Nat → RetryTrace ε α
  | 0 =>
    match fn mr with
    | Except.ok a => ⟨Except.ok a, 1, [], []⟩
    | Except.error e => ⟨Except.error e, 1, [], [e]⟩
  | fuel + 1 =>
    match fn (mr - (fuel + 1)) with
    | Except.ok a => ⟨Except.ok a, 1, [], []⟩
    | Except.error _ =>
      let rest := retryGo mr rd fn fuel
      ⟨rest.result, rest.attempts + 1, rd * 2 ^ (mr - (fuel + 1)) :: rest.delays,
        rest.errorCalls⟩

/-- Model of `_retryOperation(fn, operation)`: run the loop
`for (attempt = 0; attempt <= maxRetries; attempt++)`. -/
def retryOperation {ε α : Type} (mr rd : Nat) (fn : Nat → Except ε α) : RetryTrace ε α :=
  retryGo mr rd fn mr

/-- Result of an operation that may change the runtime state, emit observable
events, and either return a value or raise a `JsError`. -/
structure StepResult (α : Type) where
  state : ManagerState
  events : List Event
  result : Except JsError α

/-- Model of the `removeStatus(username)` method: attempt the backend delete
by username; on a backend error it logs "移除在线状态失败:" and rethrows. -/
def removeStatus (cfg : Config) (deleteResult : Except JsError Unit) (u : String)
    (s : ManagerState) : StepResult Unit :=
  match deleteResult with
  | Except.ok _ =>
    ⟨s, [Event.backendDeleteEq cfg.tableName u], Except.ok ()⟩
  | Except.error e =>
    ⟨s, [Event.backendDeleteEq cfg.tableName u, Event.logError "移除在线状态失败:"],
      Except.error e⟩

/-- Model of `userLogout()`: when a username is set, `await removeStatus(...)`
first — a rethrown delete error aborts the method there, so the cleanup below
does not run — then stop the heartbeat, stop the time-limit monitor and null
`currentUsername`. -/
def userLogout (cfg : Config) (deleteResult : Except JsError Unit)
    (s : ManagerState) : StepResult Unit :=
  match s.currentUsername with
  | some u =>
    let r := removeStatus cfg deleteResult u s
    match r.result with
    | Except.error e => ⟨r.state, r.events, Except.error e⟩
    | Except.ok _ =>
      let s1 := stopHeartbeat r.state
      let s2 := stopTimeLimitMonitor s1
      ⟨{ s2 with currentUsername := none }, r.events, Except.ok ()⟩
  | none =>
    let s1 := stopHeartbeat s
    let s2 := stopTimeLimitMonitor s1
    ⟨{ s2 with currentUsername := none }, [], Except.ok ()⟩

/-- Outcome of the `select('has_logged_in').eq(...).single()` query inside
`markUserLoggedIn`: a row whose `has_logged_in` field may be null, a resolved
`queryError`, or a rejected promise (caught by the outer catch). -/
inductive QueryRes where
  | ok (hasLoggedIn : Option Bool)
  | err (e : Nat)
  | threw (e : Nat)
  deriving Repr, DecidableEq

/-- Outcome of the `update(\x7b has_logged_in: true \x7d)` call inside
`markUserLoggedIn`. -/
inductive UpdateRes where
  | ok
  | err (e : Nat)
  | threw (e : Nat)
  deriving Repr, DecidableEq

/-- Model of `markUserLoggedIn(username)`: query the user row, return `false`
on a query error; compute `isFirstLogin = !data?.has_logged_in`; if it is a
first login, attempt the update — an update *error result* is only logged and
`isFirstLogin` is still returned, while a *thrown* query/update rejection is
caught by the outer catch which returns `false`.  The method never raises. -/
def markUserLoggedIn (cfg : Config) (q : QueryRes) (u : UpdateRes) : Bool × List Event :=
  match q with
  | QueryRes.threw _ =>
    (false, [Event.backendSelect cfg.userTable, Event.logError "标记用户登录失败:"])
  | QueryRes.err _ =>
    (false, [Event.backendSelect cfg.userTable, Event.logError "查询用户登录状态失败:"])
  | QueryRes.ok h =>
    let isFirstLogin := !(h.getD false)
    if isFirstLogin then
      match u with
      | UpdateRes.threw _ =>
        (false, [Event.backendSelect cfg.userTable, Event.backendUpdate cfg.userTable,
          Event.logError "标记用户登录失败:"])
      | UpdateRes.err _ =>
        (isFirstLogin, [Event.backendSelect cfg.userTable, Event.backendUpdate cfg.userTable,
          Event.logError "标记用户登录状态失败:"])
      | UpdateRes.ok =>
        (isFirstLogin, [Event.backendSelect cfg.userTable, Event.backendUpdate cfg.userTable])
    else
      (isFirstLogin, [Event.backendSelect cfg.userTable])

/-- JavaScript falsiness of the `username` argument of `userLogin`: `null` and
the empty string fail the `if (!username)` guard. -/
def usernameFalsy : Option String → Bool
  | none => true
  | some s => s == ""

/-- Externally-determined outcomes consumed by one `userLogin` call: the
argument itself, the first-login query/update outcomes, the outcome of each
`updateStatus` attempt inside the retry wrapper (`none` = the upsert
succeeded, `some e` = it threw backend error `e`), and the clock value used
by `startTimeLimitMonitor`. -/
structure LoginInputs where
  username : Option String
  queryRes : QueryRes
  updateRes : UpdateRes
  upsert : Nat → Option Nat
  now : Int

/-- Result value of a successful `userLogin`. -/
structure LoginResult where
  isFirstLogin : Bool
  deriving Repr, DecidableEq

/-- Model of `userLogin(username)`: reject a falsy username before touching
any state or the backend; set `currentUsername`; run the first-login check
through the retry wrapper with its result swallowed to `false` on failure;
run the initial `updateStatus` through the retry wrapper, propagating its
error without starting anything; on success start the heartbeat, install the
offline-detection listeners, optionally subscribe to realtime changes and
optionally start the time-limit monitor. -/
def userLogin (cfg : Config) (inp : LoginInputs) (s : ManagerState) : StepResult LoginResult :=
  if usernameFalsy inp.username then
    ⟨s, [], Except.error JsError.invalidInput⟩
  else
    let u := inp.username.getD ""
    let s1 := { s with currentUsername := some u }
    let fl :=
      if cfg.enableFirstLoginTracking then
        let mk := markUserLoggedIn cfg inp.queryRes inp.updateRes
        let tr := retryOperation cfg.maxRetries cfg.retryDelay
          (fun _ => (Except.ok mk.fst : Except JsError Bool))
        ((match tr.result with
          | Except.ok b => b
          | Except.error _ => false), mk.snd)
      else (false, [])
    let upsertFn : Nat → Except JsError Unit := fun k =>
      match inp.upsert k with
      | none => Except.ok ()
      | some e => Except.error (JsError.backend e)
    let tr := retryOperation cfg.maxRetries cfg.retryDelay upsertFn
    let upsertEvents :=
      List.replicate tr.attempts (Event.backendUpsert cfg.tableName u) ++
        (if cfg.hasOnError then tr.errorCalls.map (fun _ => Event.errorCallback "更新在线状态")
         else [])
    match tr.result with
    | Except.error e => ⟨s1, fl.snd ++ upsertEvents, Except.error e⟩
    | Except.ok _ =>
      let s2 := { s1 with heartbeatTimer := true }
      let s3 := { s2 with cleanupListeners := true }
      let s4 := if cfg.enableRealtime then startRealtimeSubscription s3 else s3
      let s5 := if jsTruthyTime cfg.maxOnlineTime then startTimeLimitMonitor cfg inp.now s4
        else s4
      ⟨s5, fl.snd ++ upsertEvents, Except.ok ⟨fl.fst⟩⟩

/-- One firing of the `setInterval` heartbeat callback, given the outcome of
the retry-wrapped `updateStatus` call for this tick.  A cleared timer means no
tick fires at all; a tick with no `currentUsername` does nothing; a successful
write resets `retryCount`; a failure increments it, and at 5 consecutive
failures the heartbeat is stopped and `onError(new Error('心跳连续失败'),
'心跳停止')` is invoked once. -/
def heartbeatTick (cfg : Config) (outcome : Except JsError Unit)
    (s : ManagerState) : ManagerState × List Event :=
  if !s.heartbeatTimer then (s, [])
  else
    match s.currentUsername with
    | none => (s, [])
    | some u =>
      match outcome with
      | Except.ok _ => ({ s with retryCount := 0 }, [Event.heartbeatWrite u])
      | Except.error _ =>
        let s1 := { s with retryCount := s.retryCount + 1 }
        let evs := [Event.heartbeatWrite u] ++
          (if cfg.hasOnError then [Event.errorCallback "心跳更新"] else []) ++
          [Event.logError "心跳更新失败:"]
        if s1.retryCount ≥ 5 then
          (stopHeartbeat s1,
            evs ++ [Event.logError "心跳连续失败次数过多，停止心跳"] ++
              (if cfg.hasOnError then [Event.errorCallback "心跳停止"] else []))
        else (s1, evs)

/-- Sequence of heartbeat ticks with the given per-tick outcomes, accumulating
the emitted events. -/
def heartbeatTicks (cfg : Config) (outcomes : List (Except JsError Unit))
    (s : ManagerState) : ManagerState × List Event :=
  match outcomes with
  | [] => (s, [])
  | o :: os =>
    let r := heartbeatTick cfg o s
    let rest := heartbeatTicks cfg os r.fst
    (rest.fst, r.snd ++ rest.snd)

/-- One row of the `online_users` table, per the schema: `id`, the unique
`username`, the `last_activity` and `created_at` timestamps, plus any custom
columns as key/value pairs. -/
structure Row where
  id : Nat
  username : String
  last_activity : Int
  created_at : Int
  extra : List (String × String)
  deriving Repr, DecidableEq

/-- Shape of one element returned by `getOnlineUsers`: `username`, the numeric
`lastActivity`, and the custom fields — the bookkeeping columns `id`,
`last_activity` and `created_at` are not copied. -/
structure FreshUser where
  username : String
  lastActivity : Int
  extra : List (String × String)
  deriving Repr, DecidableEq

/-- Keys the `getOnlineUsers` reduce step refuses to copy into its output. -/
def reservedFields : List String := ["id", "username", "last_activity", "created_at"]

/-- Projection of a row into the shape `getOnlineUsers` returns, mirroring the
reduce over `Object.keys(user)` that skips the keys in `reservedFields`. -/
def stripRow (r : Row) : FreshUser :=
  { username := r.username
    lastActivity := r.last_activity
    extra := r.extra.filter (fun kv => !(reservedFields.contains kv.fst)) }

/-- Query options shared by `getOnlineUsers` and `getOnlineUserCount`: the
`ilike` substring search on `username` and the `eq` filters.  Ordering and
pagination only affect presentation of the backend read and are omitted; the
idempotence statements below therefore correspond to calls without `limit`
and `offset`, such as the argumentless `listPresence()`. -/
structure QueryOptions where
  search : Option String := none
  filter : List (String × String) := []
  deriving Repr, DecidableEq

/-- Occurrence of `needle` at the head of `hay`. -/
def leadMatch : List Char → List Char → Bool
  | [], _ => true
  | _ :: _, [] => false
  | c :: cs, d :: ds => c == d && leadMatch cs ds

/-- Occurrence of `needle` anywhere in `hay`, the contiguous-substring test
behind the `%needle%` pattern of `ilike`. -/
def hasRun (needle hay : List Char) : Bool :=
  match hay with
  | [] => leadMatch needle []
  | _ :: rest => leadMatch needle hay || hasRun needle rest

/-- Value a query filter key selects on a row: the `username` column or one of
the custom columns. -/
def rowField (r : Row) (key : String) : Option String :=
  if key == "username" then some r.username
  else (r.extra.find? (fun kv => kv.fst == key)).map (fun kv => kv.snd)

/-- Row predicate applied by the backend for the query both `getOnlineUsers`
and `getOnlineUserCount` build: the case-insensitive `ilike('%search%')` on
`username` and the conjunction of the `eq` filters. -/
def matchesFilters (opts : QueryOptions) (r : Row) : Bool :=
  (match opts.search with
   | none => true
   | some sub => hasRun sub.toLower.toList r.username.toLower.toList) &&
  opts.filter.all (fun kv => rowField r kv.fst == some kv.snd)

/-- Freshness test of `getOnlineUsers` on one row: `timeDiff = now -
last_activity` must be strictly below `inactiveTimeout`. -/
def isFresh (timeout now : Int) (r : Row) : Bool :=
  decide (now - r.last_activity < timeout)

/-- Mirror of the `forEach` in `getOnlineUsers` that pushes each row onto
`activeUsers` or its username onto `expiredUsers`. -/
def partitionByAge (timeout now : Int) : List Row → List Row × List String
  | [] => ([], [])
  | r :: rs =>
    let rest := partitionByAge timeout now rs
    if isFresh timeout now r then (r :: rest.fst, rest.snd)
    else (rest.fst, r.username :: rest.snd)

/-- Result of one `getOnlineUsers` call: the returned list, the presence table
as the backend leaves it, and the argument lists of the
`delete().in('username', ...)` batch calls that were issued. -/
structure ListResult where
  returned : List FreshUser
  table : List Row
  deleteBatches : List (List String)
  deriving Repr, DecidableEq

/-- Model of `getOnlineUsers(options)` against a backend presence table.  A
backend read error (`readError = some e`) is caught: the call logs and
returns `[]`, touching nothing.  Otherwise the matching rows are partitioned
by age against `inactiveTimeout`; the expired usernames, if any, are deleted
from the table in one batch call before the stripped fresh rows are
returned. -/
def getOnlineUsers (cfg : Config) (opts : QueryOptions) (now : Int)
    (readError : Option Nat) (table : List Row) : ListResult :=
  match readError with
  | some _ => ⟨[], table, []⟩
  | none =>
    let rows := table.filter (matchesFilters opts)
    let parts := partitionByAge cfg.inactiveTimeout now rows
    if parts.snd.isEmpty then
      ⟨parts.fst.map stripRow, table, []⟩
    else
      ⟨parts.fst.map stripRow,
        table.filter (fun r => !(parts.snd.contains r.username)),
        [parts.snd]⟩

/-- Model of `getOnlineUserCount(options)`: the same `ilike`/`eq` filters as
`getOnlineUsers` plus the server-side `gte('last_activity', now -
inactiveTimeout)`; it never deletes anything, and any backend error makes it
return 0.  The pair also carries the (untouched) table to make the absence of
deletion part of the statement. -/
def getOnlineUserCount (cfg : Config) (opts : QueryOptions) (now : Int)
    (countError : Option Nat) (table : List Row) : Nat × List Row :=
  match countError with
  | some _ => (0, table)
  | none =>
    ((table.filter (fun r =>
        matchesFilters opts r && decide (now - cfg.inactiveTimeout ≤ r.last_activity))).length,
      table)

/-- Runtime state after the three cleanup lines of `userLogout`: heartbeat
stopped, time-limit monitor stopped (also nulling `loginTime`), username
cleared; every other field untouched. -/
def logoutCleared (s : ManagerState) : ManagerState :=
  { s with
    currentUsername := none
    heartbeatTimer := false
    timeWarningTimer := false
    timeLimitTimer := false
    loginTime := none }

/-! ### Retry wrapper lemmas -/

/-- Whenever the current attempt succeeds, the wrapper returns at once with a
single attempt recorded. -/
theorem retryGo_ok {ε α : Type} (mr rd : Nat) (fn : Nat → Except ε α) (fuel : Nat)
    (a : α) (h : fn (mr - fuel) = Except.ok a) :
    retryGo mr rd fn fuel = ⟨Except.ok a, 1, [], []⟩ := by
  cases fuel with
  | zero => simp only [retryGo]; rw [Nat.sub_zero] at h; rw [h]
  | succ fuel => simp only [retryGo]; rw [h]

/-- The wrapper never makes more attempts than its fuel allows. -/
theorem retryGo_attempts_le {ε α : Type} (mr rd : Nat) (fn : Nat → Except ε α) :
    ∀ fuel, (retryGo mr rd fn fuel).attempts ≤ fuel + 1 := by
  intro fuel
  induction fuel with
  | zero =>
    simp only [retryGo]
    cases fn mr <;> simp
  | succ fuel ih =>
    simp only [retryGo]
    cases fn (mr - (fuel + 1)) with
    | ok a => simp
    | error e => simpa using Nat.succ_le_succ ih

/-- Characterization of the wrapper when every remaining attempt fails: it
uses all its fuel, sleeps the exponential-backoff delays in order, reports
the final error once to `onError`, and rethrows that error. -/
theorem retryGo_allFail {ε α : Type} (mr rd : Nat) (fn : Nat → Except ε α)
    (err : Nat → ε) :
    ∀ fuel, fuel ≤ mr → (∀ k, mr - fuel ≤ k → k ≤ mr → fn k = Except.error (err k)) →
    retryGo mr rd fn fuel =
      ⟨Except.error (err mr), fuel + 1,
        (List.range fuel).map (fun i => rd * 2 ^ (mr - fuel + i)), [err mr]⟩ := by
  intro fuel
  induction fuel with
  | zero =>
    intro _ hfail
    simp only [retryGo]
    rw [hfail mr (by omega) (le_refl mr)]
    simp
  | succ fuel ih =>
    intro hle hfail
    have hcur : fn (mr - (fuel + 1)) = Except.error (err (mr - (fuel + 1))) :=
      hfail _ (le_refl _) (by omega)
    have hrest := ih (by omega) (fun k hk1 hk2 => hfail k (by omega) hk2)
    have hd : (List.range (fuel + 1)).map (fun i => rd * 2 ^ (mr - (fuel + 1) + i)) =
        rd * 2 ^ (mr - (fuel + 1)) ::
          (List.range fuel).map (fun i => rd * 2 ^ (mr - fuel + i)) := by
      rw [List.range_succ_eq_map, List.map_cons, List.map_map]
      congr 1
      refine List.map_congr_left (fun i _ => ?_)
      simp only [Function.comp_apply]
      refine congrArg (fun n => rd * 2 ^ n) ?_
      omega
    simp only [retryGo, hcur, hrest, hd]

/-- Characterization of the wrapper when attempt `k` is the first success:
every earlier attempt fails and retries, attempt `k` returns its value, and
`onError` is never invoked. -/
theorem retryGo_firstSuccess {ε α : Type} (mr rd : Nat) (fn : Nat → Except ε α)
    (k : Nat) (a : α) (hk : k ≤ mr) (hok : fn k = Except.ok a) :
    ∀ fuel, fuel ≤ mr → mr - fuel ≤ k →
    (∀ j, mr - fuel ≤ j → j < k → ∃ e, fn j = Except.error e) →
    (retryGo mr rd fn fuel).result = Except.ok a ∧
      (retryGo mr rd fn fuel).attempts = k - (mr - fuel) + 1 ∧
      (retryGo mr rd fn fuel).errorCalls = [] := by
  intro fuel
  induction fuel with
  | zero =>
    intro _ hbase _
    have hkm : k = mr := by omega
    have hok2 : fn (mr - 0) = Except.ok a := by rw [Nat.sub_zero, ← hkm]; exact hok
    rw [retryGo_ok mr rd fn 0 a hok2]
    refine ⟨rfl, ?_, rfl⟩
    show 1 = k - (mr - 0) + 1
    omega
  | succ fuel ih =>
    intro hle hbase hfail
    by_cases hbk : mr - (fuel + 1) = k
    · rw [retryGo_ok mr rd fn (fuel + 1) a (by rw [hbk]; exact hok)]
      refine ⟨rfl, ?_, rfl⟩
      show 1 = k - (mr - (fuel + 1)) + 1
      omega
    · have hlt : mr - (fuel + 1) < k := by omega
      obtain ⟨e, he⟩ := hfail _ (le_refl _) hlt
      have hrest := ih (by omega) (by omega) (fun j hj1 hj2 => hfail j (by omega) hj2)
      simp only [retryGo, he]
      refine ⟨hrest.1, ?_, hrest.2.2⟩
      rw [hrest.2.1]
      omega

/-- C3: for every wrapped backend write, `_retryOperation` makes at most
`maxRetries + 1` attempts; if every attempt fails it makes exactly
`maxRetries + 1` attempts with waits of `retryDelay * 2 ^ attempt` between
consecutive attempts (attempt = 0, 1, ...), passes the last error to the
configured error callback and rethrows it; and if some attempt is the first
to succeed, its value is returned after exactly that many attempts with no
error-callback invocation. -/
theorem retryOperation_spec {α : Type} (mr rd : Nat) (fn : Nat → Except Nat α) :
    (retryOperation mr rd fn).attempts ≤ mr + 1 ∧
    (∀ err : Nat → Nat, (∀ k, k ≤ mr → fn k = Except.error (err k)) →
      retryOperation mr rd fn =
        ⟨Except.error (err mr), mr + 1,
          (List.range mr).map (fun i => rd * 2 ^ i), [err mr]⟩) ∧
    (∀ k a, k ≤ mr → fn k = Except.ok a → (∀ j, j < k → ∃ e, fn j = Except.error e) →
      (retryOperation mr rd fn).result = Except.ok a ∧
        (retryOperation mr rd fn).attempts = k + 1 ∧
        (retryOperation mr rd fn).errorCalls = []) := by
  refine ⟨retryGo_attempts_le mr rd fn mr, ?_, ?_⟩
  · intro err hfail
    have h := retryGo_allFail mr rd fn err mr (le_refl mr)
      (fun k _ hk2 => hfail k hk2)
    unfold retryOperation
    rw [h]
    simp [Nat.sub_self]
  · intro k a hk hok hfail
    have h := retryGo_firstSuccess mr rd fn k a hk hok mr (le_refl mr) (by omega)
      (fun j _ hj => hfail j hj)
    simpa [retryOperation, Nat.sub_self] using h

/-- Concrete check of `retryOperation_spec`: with `maxRetries = 2`,
`retryDelay = 1000` and every attempt failing with its own index as the
error, the wrapper makes 3 attempts, sleeps 1000ms then 2000ms, reports error
2 and rethrows it. -/
theorem retryOperation_spec_witness :
    (retryOperation 2 1000 (fun k => (Except.error k : Except Nat Unit))).attempts ≤ 3 ∧
    retryOperation 2 1000 (fun k => (Except.error k : Except Nat Unit)) =
      ⟨Except.error 2, 3, [1000, 2000], [2]⟩ := by
  have h := retryOperation_spec 2 1000 (fun k => (Except.error k : Except Nat Unit))
  exact ⟨h.1, h.2.1 (fun k => k) (fun k _ => rfl)⟩

/-! ### Session teardown -/

/-- C1 counterexample: with an active session and a failing backend delete,
`userLogout` logs and then re-raises the delete error, and because the await
rejects before the cleanup lines run, the heartbeat timer stays armed, the
duration watchdog stays armed and the identity stays set. -/
theorem userLogout_raises_on_delete_error :
    userLogout {} (Except.error (JsError.backend 7))
        { initState with
          currentUsername := some "alice"
          heartbeatTimer := true
          timeLimitTimer := true } =
      ⟨{ initState with
          currentUsername := some "alice"
          heartbeatTimer := true
          timeLimitTimer := true },
        [Event.backendDeleteEq "online_users" "alice", Event.logError "移除在线状态失败:"],
        Except.error (JsError.backend 7)⟩ := rfl

/-- C1 (amended): `userLogout` when idle is a no-op that succeeds; when active
and the backend delete succeeds it stops the heartbeat timer, stops the
duration watchdog and clears the identity; but a backend delete error is
logged and then re-raised out of `userLogout`, in which case none of the
heartbeat timer, duration watchdog or identity is cleared. -/
theorem userLogout_behavior (cfg : Config) (s : ManagerState)
    (dres : Except JsError Unit) :
    (s.currentUsername = none →
      userLogout cfg dres s = ⟨logoutCleared s, [], Except.ok ()⟩) ∧
    (∀ u, s.currentUsername = some u → dres = Except.ok () →
      userLogout cfg dres s =
        ⟨logoutCleared s, [Event.backendDeleteEq cfg.tableName u], Except.ok ()⟩) ∧
    (∀ u e, s.currentUsername = some u → dres = Except.error e →
      userLogout cfg dres s =
        ⟨s, [Event.backendDeleteEq cfg.tableName u, Event.logError "移除在线状态失败:"],
          Except.error e⟩) := by
  refine ⟨fun h => ?_, fun u hu hd => ?_, fun u e hu hd => ?_⟩
  · simp [userLogout, h, stopHeartbeat, stopTimeLimitMonitor, logoutCleared]
  · simp [userLogout, hu, hd, removeStatus, stopHeartbeat, stopTimeLimitMonitor,
      logoutCleared]
  · simp [userLogout, hu, hd, removeStatus]

/-- Concrete check of `userLogout_behavior`: logging out of an active session
with a successful delete clears the timers and identity. -/
theorem userLogout_behavior_witness :
    (({ initState with
        currentUsername := some "bob"
        heartbeatTimer := true } : ManagerState).currentUsername = some "bob") ∧
    userLogout {} (Except.ok ())
        { initState with
          currentUsername := some "bob"
          heartbeatTimer := true } =
      ⟨logoutCleared
          { initState with
            currentUsername := some "bob"
            heartbeatTimer := true },
        [Event.backendDeleteEq "online_users" "bob"], Except.ok ()⟩ :=
  ⟨rfl, (userLogout_behavior {}
    { initState with
      currentUsername := some "bob"
      heartbeatTimer := true }
    (Except.ok ())).2.1 "bob" rfl rfl⟩

/-- C5 counterexample: after a successful `userLogout` the change-feed
subscription is NOT torn down — the `realtimeChannel` handle survives (only
`destroy` removes it), and the offline-detection listeners survive too. -/
theorem userLogout_keeps_realtime_channel :
    ((userLogout {} (Except.ok ())
        { initState with
          currentUsername := some "alice"
          heartbeatTimer := true
          realtimeChannel := true
          cleanupListeners := true }).state.realtimeChannel = true) ∧
    ((userLogout {} (Except.ok ())
        { initState with
          currentUsername := some "alice"
          heartbeatTimer := true
          realtimeChannel := true
          cleanupListeners := true }).state.cleanupListeners = true) := ⟨rfl, rfl⟩

/-- C5 (amended): the runtime state is empty at construction; a successful
`userLogin` populates it (identity, heartbeat timer, unload/visibility hooks,
and the change-feed subscription when realtime is enabled); `userLogout` with
a successful (or skipped) delete clears the identity, heartbeat timer,
duration-limit timers and login timestamp, but leaves the retry counter, the
change-feed subscription handle and the host-environment hooks untouched —
the subscription is only torn down by `destroy`. -/
theorem managerState_lifecycle (cfg : Config) (s : ManagerState) (inp : LoginInputs)
    (u : String) (dres : Except JsError Unit) :
    (initState.currentUsername = none ∧ initState.heartbeatTimer = false ∧
      initState.retryCount = 0 ∧ initState.realtimeChannel = false ∧
      initState.loginTime = none ∧ initState.timeLimitTimer = false ∧
      initState.timeWarningTimer = false ∧ initState.cleanupListeners = false) ∧
    (inp.username = some u → u ≠ "" → (∀ k, inp.upsert k = none) →
      ((userLogin cfg inp initState).state.currentUsername = some u ∧
        (userLogin cfg inp initState).state.heartbeatTimer = true ∧
        (userLogin cfg inp initState).state.cleanupListeners = true ∧
        (cfg.enableRealtime = true →
          (userLogin cfg inp initState).state.realtimeChannel = true))) ∧
    (dres = Except.ok () →
      (userLogout cfg dres s).state = logoutCleared s ∧
      (userLogout cfg dres s).state.realtimeChannel = s.realtimeChannel ∧
      (userLogout cfg dres s).state.cleanupListeners = s.cleanupListeners ∧
      (userLogout cfg dres s).state.retryCount = s.retryCount) ∧
    ((destroy s).realtimeChannel = false ∧ (destroy s).heartbeatTimer = false ∧
      (destroy s).timeLimitTimer = false ∧ (destroy s).timeWarningTimer = false ∧
      (destroy s).cleanupListeners = false) := by
  refine ⟨by simp [initState], fun hu hne hup => ?_, fun hd => ?_, ?_⟩
  · have key : ∀ mrr rdd : Nat,
        retryOperation mrr rdd (fun k =>
          match inp.upsert k with
          | none => Except.ok ()
          | some e => Except.error (JsError.backend e)) =
          ⟨Except.ok (), 1, [], []⟩ := by
      intro mrr rdd
      exact retryGo_ok mrr rdd _ mrr () (by rw [hup])
    cases hrt : cfg.enableRealtime <;>
      cases hmt : jsTruthyTime cfg.maxOnlineTime <;>
        cases hwt : jsTruthyTime cfg.warningTime && cfg.hasOnTimeWarning <;>
          simp [userLogin, usernameFalsy, hne, hu, key, hrt, hmt, hwt,
            startTimeLimitMonitor, stopTimeLimitMonitor, startRealtimeSubscription,
            initState]
  · rcases hcn : s.currentUsername with _ | u2
    · simp [userLogout, hcn, hd, removeStatus, stopHeartbeat, stopTimeLimitMonitor,
        logoutCleared]
    · simp [userLogout, hcn, hd, removeStatus, stopHeartbeat, stopTimeLimitMonitor,
        logoutCleared]
  · cases hrc : s.realtimeChannel <;>
      simp [destroy, stopHeartbeat, stopRealtimeSubscription, stopTimeLimitMonitor, hrc]

/-- Concrete check of `managerState_lifecycle`: a successful realtime-enabled
login populates the identity, heartbeat timer, listeners and channel. -/
theorem managerState_lifecycle_witness :
    ((⟨some "carol", QueryRes.ok none, UpdateRes.ok, fun _ => none, 0⟩ :
        LoginInputs).username = some "carol" ∧ "carol" ≠ "" ∧
      (∀ k : Nat, (⟨some "carol", QueryRes.ok none, UpdateRes.ok, fun _ => none, 0⟩ :
        LoginInputs).upsert k = none)) ∧
    ((userLogin { enableRealtime := true }
        ⟨some "carol", QueryRes.ok none, UpdateRes.ok, fun _ => none, 0⟩
        initState).state.currentUsername = some "carol" ∧
      (userLogin { enableRealtime := true }
        ⟨some "carol", QueryRes.ok none, UpdateRes.ok, fun _ => none, 0⟩
        initState).state.heartbeatTimer = true ∧
      (userLogin { enableRealtime := true }
        ⟨some "carol", QueryRes.ok none, UpdateRes.ok, fun _ => none, 0⟩
        initState).state.cleanupListeners = true ∧
      (({ enableRealtime := true } : Config).enableRealtime = true →
        (userLogin { enableRealtime := true }
          ⟨some "carol", QueryRes.ok none, UpdateRes.ok, fun _ => none, 0⟩
          initState).state.realtimeChannel = true)) :=
  ⟨⟨rfl, by decide, fun k => rfl⟩,
    (managerState_lifecycle { enableRealtime := true } initState
      ⟨some "carol", QueryRes.ok none, UpdateRes.ok, fun _ => none, 0⟩
      "carol" (Except.ok ())).2.1 rfl (by decide) (fun k => rfl)⟩

/-! ### Duration limit monitor -/

/-- C2 (code bug): `startTimeLimitMonitor` assigns `loginTime` and then calls
`stopTimeLimitMonitor()`, which nulls it again, so with
`maxOnlineTime = 3600000`, `warningTime = 3000000` and a login at absolute
time 1700000000000 the stored `loginTime` is null although both timers are
armed; when the warning timer fires 3000000ms later, the callback argument
`maxOnlineTime - (Date.now() - loginTime)` coerces the null `loginTime` to 0
and evaluates to -1699999400000, not the intended remaining time 600000 that
the preserved login timestamp would have produced. -/
theorem timeWarning_argument_bug :
    (startTimeLimitMonitor
        { maxOnlineTime := some 3600000
          warningTime := some 3000000
          hasOnTimeWarning := true
          hasOnTimeLimit := true }
        1700000000000 initState).loginTime = none ∧
    (startTimeLimitMonitor
        { maxOnlineTime := some 3600000
          warningTime := some 3000000
          hasOnTimeWarning := true
          hasOnTimeLimit := true }
        1700000000000 initState).timeWarningTimer = true ∧
    (startTimeLimitMonitor
        { maxOnlineTime := some 3600000
          warningTime := some 3000000
          hasOnTimeWarning := true
          hasOnTimeLimit := true }
        1700000000000 initState).timeLimitTimer = true ∧
    warningTimeLeft 3600000 (1700000000000 + 3000000)
      (startTimeLimitMonitor
        { maxOnlineTime := some 3600000
          warningTime := some 3000000
          hasOnTimeWarning := true
          hasOnTimeLimit := true }
        1700000000000 initState).loginTime = -1699999400000 ∧
    warningTimeLeft 3600000 (1700000000000 + 3000000) (some 1700000000000) = 600000 := by
  exact ⟨rfl, rfl, rfl, by decide, by decide⟩

/-! ### Heartbeat failure policy -/

/-- With the interval handle cleared, no tick ever fires again: the state is
unchanged and no event — in particular no heartbeat write — is emitted. -/
theorem heartbeatTicks_stopped (cfg : Config) (s : ManagerState)
    (h : s.heartbeatTimer = false) :
    ∀ os : List (Except JsError Unit), heartbeatTicks cfg os s = (s, []) := by
  intro os
  induction os with
  | nil => rfl
  | cons o os ih =>
    simp only [heartbeatTicks, heartbeatTick, h]
    simpa using ih

/-- C6: starting from a running heartbeat with a zero consecutive-failure
counter, five consecutive failing ticks stop the heartbeat timer, invoke the
error callback exactly once with the "心跳停止" reason, leave the identity set
(no automatic logout), and allow no further tick — hence no further heartbeat
write — afterwards; and any successful tick resets the counter to 0. -/
theorem heartbeat_five_failures (cfg : Config) (s : ManagerState) (u : String)
    (e1 e2 e3 e4 e5 : Nat)
    (hT : s.heartbeatTimer = true) (hU : s.currentUsername = some u)
    (hR : s.retryCount = 0) (hE : cfg.hasOnError = true) :
    ((heartbeatTicks cfg [Except.error (JsError.backend e1),
        Except.error (JsError.backend e2), Except.error (JsError.backend e3),
        Except.error (JsError.backend e4), Except.error (JsError.backend e5)]
        s).fst.heartbeatTimer = false) ∧
    ((heartbeatTicks cfg [Except.error (JsError.backend e1),
        Except.error (JsError.backend e2), Except.error (JsError.backend e3),
        Except.error (JsError.backend e4), Except.error (JsError.backend e5)]
        s).fst.currentUsername = some u) ∧
    ((heartbeatTicks cfg [Except.error (JsError.backend e1),
        Except.error (JsError.backend e2), Except.error (JsError.backend e3),
        Except.error (JsError.backend e4), Except.error (JsError.backend e5)]
        s).snd.count (Event.errorCallback "心跳停止") = 1) ∧
    (∀ os, heartbeatTicks cfg os
        (heartbeatTicks cfg [Except.error (JsError.backend e1),
          Except.error (JsError.backend e2), Except.error (JsError.backend e3),
          Except.error (JsError.backend e4), Except.error (JsError.backend e5)]
          s).fst =
      ((heartbeatTicks cfg [Except.error (JsError.backend e1),
          Except.error (JsError.backend e2), Except.error (JsError.backend e3),
          Except.error (JsError.backend e4), Except.error (JsError.backend e5)]
          s).fst, [])) ∧
    (∀ s2 : ManagerState, ∀ u2, s2.heartbeatTimer = true →
      s2.currentUsername = some u2 →
      (heartbeatTick cfg (Except.ok ()) s2).fst.retryCount = 0) := by
  have hrun : heartbeatTicks cfg [Except.error (JsError.backend e1),
      Except.error (JsError.backend e2), Except.error (JsError.backend e3),
      Except.error (JsError.backend e4), Except.error (JsError.backend e5)] s =
      ({ s with retryCount := 5, heartbeatTimer := false },
        [Event.heartbeatWrite u, Event.errorCallback "心跳更新",
          Event.logError "心跳更新失败:",
          Event.heartbeatWrite u, Event.errorCallback "心跳更新",
          Event.logError "心跳更新失败:",
          Event.heartbeatWrite u, Event.errorCallback "心跳更新",
          Event.logError "心跳更新失败:",
          Event.heartbeatWrite u, Event.errorCallback "心跳更新",
          Event.logError "心跳更新失败:",
          Event.heartbeatWrite u, Event.errorCallback "心跳更新",
          Event.logError "心跳更新失败:",
          Event.logError "心跳连续失败次数过多，停止心跳",
          Event.errorCallback "心跳停止"]) := by
    simp [heartbeatTicks, heartbeatTick, hT, hU, hR, hE, stopHeartbeat]
  refine ⟨by rw [hrun], by rw [hrun]; exact hU, ?_, ?_, ?_⟩
  · rw [hrun]
    simp [List.count_cons]
  · intro os
    rw [hrun]
    exact heartbeatTicks_stopped cfg _ rfl os
  · intro s2 u2 h1 h2
    simp [heartbeatTick, h1, h2]

/-- Concrete check of `heartbeat_five_failures` with a running session and
five failing ticks. -/
theorem heartbeat_five_failures_witness :
    (({ initState with
        currentUsername := some "erin"
        heartbeatTimer := true } : ManagerState).heartbeatTimer = true ∧
      ({ initState with
        currentUsername := some "erin"
        heartbeatTimer := true } : ManagerState).currentUsername = some "erin" ∧
      ({ initState with
        currentUsername := some "erin"
        heartbeatTimer := true } : ManagerState).retryCount = 0 ∧
      ({ hasOnError := true } : Config).hasOnError = true) ∧
    (heartbeatTicks { hasOnError := true }
        [Except.error (JsError.backend 1), Except.error (JsError.backend 2),
          Except.error (JsError.backend 3), Except.error (JsError.backend 4),
          Except.error (JsError.backend 5)]
        { initState with
          currentUsername := some "erin"
          heartbeatTimer := true }).fst.heartbeatTimer = false ∧
    (heartbeatTicks { hasOnError := true }
        [Except.error (JsError.backend 1), Except.error (JsError.backend 2),
          Except.error (JsError.backend 3), Except.error (JsError.backend 4),
          Except.error (JsError.backend 5)]
        { initState with
          currentUsername := some "erin"
          heartbeatTimer := true }).snd.count (Event.errorCallback "心跳停止") = 1 :=
  ⟨⟨rfl, rfl, rfl, rfl⟩,
    (heartbeat_five_failures { hasOnError := true }
      { initState with
        currentUsername := some "erin"
        heartbeatTimer := true } "erin" 1 2 3 4 5 rfl rfl rfl rfl).1,
    (heartbeat_five_failures { hasOnError := true }
      { initState with
        currentUsername := some "erin"
        heartbeatTimer := true } "erin" 1 2 3 4 5 rfl rfl rfl rfl).2.2.1⟩

/-! ### Presence directory reader -/

/-- The push-based `forEach` partition agrees with filtering by freshness. -/
theorem partitionByAge_eq (timeout now : Int) (rows : List Row) :
    partitionByAge timeout now rows =
      (rows.filter (isFresh timeout now),
        (rows.filter (fun r => !(isFresh timeout now r))).map Row.username) := by
  induction rows with
  | nil => rfl
  | cons r rs ih =>
    simp only [partitionByAge, ih]
    cases h : isFresh timeout now r <;> simp [List.filter_cons, h]

/-- Membership of a row's username in the expired-usernames batch, given that
usernames are unique in the table (they are a UNIQUE column): a matching row
is in the batch exactly when it is stale. -/
theorem expired_contains_eq (opts : QueryOptions) (timeout now : Int)
    (table : List Row) (hN : (table.map Row.username).Nodup) (r : Row)
    (hr : r ∈ table) (hM : matchesFilters opts r = true) :
    (((table.filter (matchesFilters opts)).filter
        (fun x => !(isFresh timeout now x))).map Row.username).contains r.username =
      !(isFresh timeout now r) := by
  have hmem : r.username ∈ ((table.filter (matchesFilters opts)).filter
      (fun x => !(isFresh timeout now x))).map Row.username ↔
      isFresh timeout now r = false := by
    constructor
    · intro h
      obtain ⟨s, hs, hsr⟩ := List.mem_map.mp h
      obtain ⟨hs1, hsF⟩ := List.mem_filter.mp hs
      obtain ⟨hs2, _⟩ := List.mem_filter.mp hs1
      have hrs : s = r := List.inj_on_of_nodup_map hN hs2 hr hsr
      rw [← hrs]
      simpa using hsF
    · intro h
      refine List.mem_map_of_mem Row.username (List.mem_filter.mpr ?_)
      exact ⟨List.mem_filter.mpr ⟨hr, hM⟩, by simp [h]⟩
  cases hF : isFresh timeout now r with
  | true =>
    have hnot : r.username ∉ ((table.filter (matchesFilters opts)).filter
        (fun x => !(isFresh timeout now x))).map Row.username := by
      intro h
      rw [hmem.mp h] at hF
      exact Bool.false_ne_true hF
    rw [Bool.not_true, Bool.eq_false_iff]
    intro hc
    exact hnot (List.elem_iff.mp hc)
  | false =>
    have hin := hmem.mpr hF
    rw [Bool.not_false]
    exact List.elem_iff.mpr hin

/-- C8: a backend read error makes `getOnlineUsers` return `[]` without
raising and without touching the table, and a genuinely empty presence set
also yields `[]`, so the two cases are indistinguishable to the caller. -/
theorem getOnlineUsers_error_empty (cfg : Config) (opts : QueryOptions)
    (now : Int) (table : List Row) (e : Nat) :
    getOnlineUsers cfg opts now (some e) table = ⟨[], table, []⟩ ∧
    (getOnlineUsers cfg opts now (some e) table).returned =
      (getOnlineUsers cfg opts now none []).returned := by
  exact ⟨rfl, rfl⟩

/-- Unfolding of `getOnlineUsers` on a successful read: partition the matching
rows by freshness, strip the fresh ones, and batch-delete the expired
usernames when there are any. -/
theorem getOnlineUsers_none_eq (cfg : Config) (opts : QueryOptions) (now : Int)
    (table : List Row) :
    getOnlineUsers cfg opts now none table =
      (if (((table.filter (matchesFilters opts)).filter
            (fun r => !(isFresh cfg.inactiveTimeout now r))).map Row.username).isEmpty
        then ⟨((table.filter (matchesFilters opts)).filter
            (isFresh cfg.inactiveTimeout now)).map stripRow, table, []⟩
        else ⟨((table.filter (matchesFilters opts)).filter
            (isFresh cfg.inactiveTimeout now)).map stripRow,
          table.filter (fun r =>
            !((((table.filter (matchesFilters opts)).filter
              (fun x => !(isFresh cfg.inactiveTimeout now x))).map Row.username).contains
              r.username)),
          [((table.filter (matchesFilters opts)).filter
            (fun x => !(isFresh cfg.inactiveTimeout now x))).map Row.username]⟩) := by
  simp only [getOnlineUsers, partitionByAge_eq]

/-- With unique usernames, a second `getOnlineUsers` call right after a first
one (same clock, same options, no pagination) sees only rows that survived
the first call's cleanup, returns the same fresh set, and issues no delete. -/
theorem getOnlineUsers_second_call (cfg : Config) (opts : QueryOptions) (now : Int)
    (table : List Row) (hN : (table.map Row.username).Nodup) :
    (getOnlineUsers cfg opts now none
        (getOnlineUsers cfg opts now none table).table).returned =
      (getOnlineUsers cfg opts now none table).returned ∧
    (getOnlineUsers cfg opts now none
        (getOnlineUsers cfg opts now none table).table).deleteBatches = [] := by
  by_cases hE : (((table.filter (matchesFilters opts)).filter
      (fun r => !(isFresh cfg.inactiveTimeout now r))).map Row.username).isEmpty = true
  · have h1 : (getOnlineUsers cfg opts now none table).table = table := by
      rw [getOnlineUsers_none_eq, if_pos hE]
    refine ⟨by rw [h1], ?_⟩
    rw [h1, getOnlineUsers_none_eq, if_pos hE]
  · have hT2 : (getOnlineUsers cfg opts now none table).table =
        table.filter (fun r =>
          !((((table.filter (matchesFilters opts)).filter
            (fun x => !(isFresh cfg.inactiveTimeout now x))).map Row.username).contains
            r.username)) := by
      rw [getOnlineUsers_none_eq, if_neg hE]
    have hfilterM : (table.filter (fun r =>
        !((((table.filter (matchesFilters opts)).filter
          (fun x => !(isFresh cfg.inactiveTimeout now x))).map Row.username).contains
          r.username))).filter (matchesFilters opts) =
        table.filter (fun r =>
          matchesFilters opts r && isFresh cfg.inactiveTimeout now r) := by
      rw [List.filter_filter]
      refine List.filter_congr ?_
      intro r hr
      by_cases hMr : matchesFilters opts r = true
      · have hc := expired_contains_eq opts cfg.inactiveTimeout now table hN r hr hMr
        rw [hMr, hc, Bool.not_not]
      · rw [Bool.eq_false_iff.mpr hMr]
        simp
    have hnil : (((table.filter (fun r =>
        !((((table.filter (matchesFilters opts)).filter
          (fun x => !(isFresh cfg.inactiveTimeout now x))).map Row.username).contains
          r.username))).filter (matchesFilters opts)).filter
        (fun r => !(isFresh cfg.inactiveTimeout now r))) = [] := by
      rw [hfilterM, List.filter_eq_nil_iff]
      intro a ha
      have h2 := (List.mem_filter.mp ha).2
      simp only [Bool.and_eq_true] at h2
      simp [h2.2]
    have hself : (((table.filter (fun r =>
        !((((table.filter (matchesFilters opts)).filter
          (fun x => !(isFresh cfg.inactiveTimeout now x))).map Row.username).contains
          r.username))).filter (matchesFilters opts)).filter
        (isFresh cfg.inactiveTimeout now)) =
        table.filter (fun r =>
          matchesFilters opts r && isFresh cfg.inactiveTimeout now r) := by
      rw [hfilterM]
      apply List.filter_eq_self.mpr
      intro a ha
      have h2 := (List.mem_filter.mp ha).2
      simp only [Bool.and_eq_true] at h2
      exact h2.2
    have hcomm : (table.filter (matchesFilters opts)).filter
        (isFresh cfg.inactiveTimeout now) =
        table.filter (fun r =>
          matchesFilters opts r && isFresh cfg.inactiveTimeout now r) := by
      rw [List.filter_filter]
      exact List.filter_congr (fun r _ => Bool.and_comm _ _)
    rw [hT2]
    have hcond : ((((table.filter (fun r =>
        !((((table.filter (matchesFilters opts)).filter
          (fun x => !(isFresh cfg.inactiveTimeout now x))).map Row.username).contains
          r.username))).filter (matchesFilters opts)).filter
        (fun r => !(isFresh cfg.inactiveTimeout now r))).map Row.username).isEmpty =
        true := by
      rw [hnil]
      rfl
    constructor
    · rw [getOnlineUsers_none_eq, if_pos hcond]
      rw [getOnlineUsers_none_eq, if_neg hE]
      show (((table.filter _).filter (matchesFilters opts)).filter
        (isFresh cfg.inactiveTimeout now)).map stripRow = _
      rw [hself, hcomm]
    · rw [getOnlineUsers_none_eq, if_pos hcond]

/-- C4: `getOnlineUsers` partitions the queried rows by age — a row with
`now - last_activity` strictly below `inactiveTimeout` is returned with the
bookkeeping fields `id`, `last_activity`, `created_at` stripped and the
custom fields passed through, a row at or above is excluded; all stale
usernames are deleted from the backend in one batch call during the same
invocation; and (usernames being a UNIQUE column) a second call in
succession yields the same fresh set and issues no delete at all. -/
theorem getOnlineUsers_spec (cfg : Config) (opts : QueryOptions) (now : Int)
    (table : List Row) (hN : (table.map Row.username).Nodup) :
    ((getOnlineUsers cfg opts now none table).returned =
      ((table.filter (matchesFilters opts)).filter
        (isFresh cfg.inactiveTimeout now)).map stripRow) ∧
    (∀ fu ∈ (getOnlineUsers cfg opts now none table).returned,
      ∀ kv ∈ fu.extra, reservedFields.contains kv.fst = false) ∧
    ((getOnlineUsers cfg opts now none table).deleteBatches =
      if (((table.filter (matchesFilters opts)).filter
          (fun r => !(isFresh cfg.inactiveTimeout now r))).map Row.username).isEmpty
        then []
        else [((table.filter (matchesFilters opts)).filter
          (fun r => !(isFresh cfg.inactiveTimeout now r))).map Row.username]) ∧
    ((getOnlineUsers cfg opts now none
        (getOnlineUsers cfg opts now none table).table).returned =
      (getOnlineUsers cfg opts now none table).returned) ∧
    ((getOnlineUsers cfg opts now none
        (getOnlineUsers cfg opts now none table).table).deleteBatches = []) := by
  have hret : (getOnlineUsers cfg opts now none table).returned =
      ((table.filter (matchesFilters opts)).filter
        (isFresh cfg.inactiveTimeout now)).map stripRow := by
    by_cases hE : (((table.filter (matchesFilters opts)).filter
        (fun r => !(isFresh cfg.inactiveTimeout now r))).map Row.username).isEmpty = true
    · rw [getOnlineUsers_none_eq, if_pos hE]
    · rw [getOnlineUsers_none_eq, if_neg hE]
  refine ⟨hret, ?_, ?_, (getOnlineUsers_second_call cfg opts now table hN).1,
    (getOnlineUsers_second_call cfg opts now table hN).2⟩
  · intro fu hfu kv hkv
    rw [hret] at hfu
    obtain ⟨r, hr, rfl⟩ := List.mem_map.mp hfu
    simp only [stripRow] at hkv
    have h2 := (List.mem_filter.mp hkv).2
    simpa using h2
  · by_cases hE : (((table.filter (matchesFilters opts)).filter
        (fun r => !(isFresh cfg.inactiveTimeout now r))).map Row.username).isEmpty = true
    · rw [getOnlineUsers_none_eq, if_pos hE, if_pos hE]
    · rw [getOnlineUsers_none_eq, if_neg hE, if_neg hE]

/-- Concrete check of `getOnlineUsers_spec` at a table with one fresh and one
stale row. -/
theorem getOnlineUsers_spec_witness :
    (([⟨1, "alice", 1000000, 0, [("role", "admin")]⟩,
        ⟨2, "zed", 500000, 0, []⟩] : List Row).map Row.username).Nodup ∧
    (getOnlineUsers {} {} 1060000 none
        [⟨1, "alice", 1000000, 0, [("role", "admin")]⟩,
          ⟨2, "zed", 500000, 0, []⟩]).returned =
      ((([⟨1, "alice", 1000000, 0, [("role", "admin")]⟩,
          ⟨2, "zed", 500000, 0, []⟩] : List Row).filter (matchesFilters {})).filter
        (isFresh ({} : Config).inactiveTimeout 1060000)).map stripRow :=
  ⟨by decide,
    (getOnlineUsers_spec {} {} 1060000
      [⟨1, "alice", 1000000, 0, [("role", "admin")]⟩, ⟨2, "zed", 500000, 0, []⟩]
      (by decide)).1⟩

/-- C7: `getOnlineUserCount` applies the same search/equality row predicate
`matchesFilters` as `getOnlineUsers` plus the server-side
`gte('last_activity', now - inactiveTimeout)` bound, deletes nothing, and
returns 0 on any backend error; a row whose age is exactly `inactiveTimeout`
satisfies the count's bound and at the same time fails `getOnlineUsers`'s
strict freshness test, so it is counted if and only if it is excluded as
stale. -/
theorem getOnlineUserCount_spec (cfg : Config) (opts : QueryOptions) (now : Int)
    (table : List Row) :
    (∀ e, getOnlineUserCount cfg opts now (some e) table = (0, table)) ∧
    ((getOnlineUserCount cfg opts now none table).snd = table) ∧
    ((getOnlineUserCount cfg opts now none table).fst =
      (table.filter (fun r => matchesFilters opts r &&
        decide (now - cfg.inactiveTimeout ≤ r.last_activity))).length) ∧
    (∀ r : Row, matchesFilters opts r = true →
      r.last_activity = now - cfg.inactiveTimeout →
      ((decide (now - cfg.inactiveTimeout ≤ r.last_activity) = true) ↔
        (isFresh cfg.inactiveTimeout now r = false)) ∧
      (getOnlineUserCount cfg opts now none [r]).fst = 1 ∧
      (getOnlineUsers cfg opts now none [r]).returned = []) := by
  refine ⟨fun e => rfl, rfl, rfl, ?_⟩
  intro r hM hla
  have hF : isFresh cfg.inactiveTimeout now r = false := by
    simp [isFresh, hla]
  have hge : decide (now - cfg.inactiveTimeout ≤ r.last_activity) = true := by
    simp [hla]
  refine ⟨⟨fun _ => hF, fun _ => hge⟩, ?_, ?_⟩
  · have hone : (([r] : List Row).filter (fun x => matchesFilters opts x &&
        decide (now - cfg.inactiveTimeout ≤ x.last_activity))) = [r] := by
      rw [List.filter_eq_self]
      intro a ha
      rw [List.mem_singleton] at ha
      subst ha
      rw [hM, hge]
      rfl
    show (([r] : List Row).filter (fun x => matchesFilters opts x &&
      decide (now - cfg.inactiveTimeout ≤ x.last_activity))).length = 1
    rw [hone]
    rfl
  · have hfil : (([r] : List Row).filter (matchesFilters opts)).filter
        (isFresh cfg.inactiveTimeout now) = [] := by
      simp [List.filter, hM, hF]
    by_cases hc : (((([r] : List Row).filter (matchesFilters opts)).filter
        (fun x => !(isFresh cfg.inactiveTimeout now x))).map Row.username).isEmpty = true
    · rw [getOnlineUsers_none_eq, if_pos hc]
      show ((([r] : List Row).filter (matchesFilters opts)).filter
        (isFresh cfg.inactiveTimeout now)).map stripRow = []
      rw [hfil]
      rfl
    · rw [getOnlineUsers_none_eq, if_neg hc]
      show ((([r] : List Row).filter (matchesFilters opts)).filter
        (isFresh cfg.inactiveTimeout now)).map stripRow = []
      rw [hfil]
      rfl

/-- Concrete check of `getOnlineUserCount_spec` at a row whose age is exactly
the inactive timeout under the default 300000ms timeout. -/
theorem getOnlineUserCount_spec_witness :
    matchesFilters {} ⟨1, "bob", 300000, 0, []⟩ = true ∧
    (⟨1, "bob", 300000, 0, []⟩ : Row).last_activity =
      600000 - ({} : Config).inactiveTimeout ∧
    (getOnlineUserCount {} {} 600000 none [⟨1, "bob", 300000, 0, []⟩]).fst = 1 ∧
    (getOnlineUsers {} {} 600000 none [⟨1, "bob", 300000, 0, []⟩]).returned = [] :=
  ⟨rfl, by decide,
    ((getOnlineUserCount_spec {} {} 600000 [⟨1, "bob", 300000, 0, []⟩]).2.2.2
      ⟨1, "bob", 300000, 0, []⟩ rfl (by decide)).2.1,
    ((getOnlineUserCount_spec {} {} 600000 [⟨1, "bob", 300000, 0, []⟩]).2.2.2
      ⟨1, "bob", 300000, 0, []⟩ rfl (by decide)).2.2⟩

/-! ### Login validation and first-login tracking -/

/-- C9: `userLogin` with a falsy username (null or the empty string) raises
the "用户名不能为空" error immediately: the runtime state is untouched and no
event — in particular no backend call — is emitted. -/
theorem userLogin_invalid_input (cfg : Config) (inp : LoginInputs)
    (s : ManagerState) (h : usernameFalsy inp.username = true) :
    userLogin cfg inp s = ⟨s, [], Except.error JsError.invalidInput⟩ := by
  simp [userLogin, h]

/-- Concrete check of `userLogin_invalid_input` on both falsy arguments. -/
theorem userLogin_invalid_input_witness :
    usernameFalsy (some "") = true ∧ usernameFalsy none = true ∧
    userLogin {} ⟨some "", QueryRes.ok none, UpdateRes.ok, fun _ => none, 0⟩
        initState = ⟨initState, [], Except.error JsError.invalidInput⟩ ∧
    userLogin {} ⟨none, QueryRes.ok none, UpdateRes.ok, fun _ => none, 0⟩
        initState = ⟨initState, [], Except.error JsError.invalidInput⟩ :=
  ⟨rfl, rfl,
    userLogin_invalid_input {} ⟨some "", QueryRes.ok none, UpdateRes.ok, fun _ => none, 0⟩
      initState rfl,
    userLogin_invalid_input {} ⟨none, QueryRes.ok none, UpdateRes.ok, fun _ => none, 0⟩
      initState rfl⟩

/-- C10 counterexample: when the first-login query succeeds (no prior login
recorded) and the update resolves with an error, `markUserLoggedIn` logs the
update failure but still returns `true`, not `false`. -/
theorem markUserLoggedIn_update_error_returns_true :
    (markUserLoggedIn {} (QueryRes.ok none) (UpdateRes.err 3)).fst = true := rfl

/-- C10 (amended): `markUserLoggedIn` never raises (it is total into `Bool`);
a query error or any thrown rejection yields `false` — so `userLogin` reports
a user whose identity-table read failed as `isFirstLogin = false`,
indistinguishable from a repeat login — while a resolved update error is only
logged and the computed first-login flag is still returned; and the retry
wrapper around the check performs exactly one attempt because the wrapped
function never throws. -/
theorem markUserLoggedIn_spec (cfg : Config) (q : QueryRes) (u : UpdateRes)
    (inp : LoginInputs) (s : ManagerState) (un : String) :
    (∀ e, q = QueryRes.err e → (markUserLoggedIn cfg q u).fst = false) ∧
    (∀ e, q = QueryRes.threw e → (markUserLoggedIn cfg q u).fst = false) ∧
    (∀ e, u = UpdateRes.threw e → (markUserLoggedIn cfg q u).fst = false) ∧
    (∀ h e, q = QueryRes.ok h → u = UpdateRes.err e →
      (markUserLoggedIn cfg q u).fst = !(h.getD false)) ∧
    ((retryOperation cfg.maxRetries cfg.retryDelay (fun _ =>
        (Except.ok (markUserLoggedIn cfg q u).fst : Except JsError Bool))).attempts = 1 ∧
      (retryOperation cfg.maxRetries cfg.retryDelay (fun _ =>
        (Except.ok (markUserLoggedIn cfg q u).fst : Except JsError Bool))).result =
        Except.ok (markUserLoggedIn cfg q u).fst) ∧
    (∀ e, inp.username = some un → un ≠ "" → inp.queryRes = QueryRes.err e →
      cfg.enableFirstLoginTracking = true → (∀ k, inp.upsert k = none) →
      (userLogin cfg inp s).result = Except.ok ⟨false⟩) := by
  refine ⟨?_, ?_, ?_, ?_, ?_, ?_⟩
  · intro e hq
    subst hq
    rfl
  · intro e hq
    subst hq
    rfl
  · intro e hu
    subst hu
    cases q with
    | err e2 => rfl
    | threw e2 => rfl
    | ok h => cases hh : h.getD false <;> simp [markUserLoggedIn, hh]
  · intro h e hq hu
    subst hq
    subst hu
    cases hh : h.getD false <;> simp [markUserLoggedIn, hh]
  · have hr := retryGo_ok cfg.maxRetries cfg.retryDelay
      (fun _ => (Except.ok (markUserLoggedIn cfg q u).fst : Except JsError Bool))
      cfg.maxRetries (markUserLoggedIn cfg q u).fst rfl
    exact ⟨by rw [retryOperation, hr], by rw [retryOperation, hr]⟩
  · intro e hu2 hne hq hFL hup
    have hmk : (markUserLoggedIn cfg inp.queryRes inp.updateRes).fst = false := by
      rw [hq]
      rfl
    have key1 : retryOperation cfg.maxRetries cfg.retryDelay (fun _ =>
        (Except.ok (markUserLoggedIn cfg inp.queryRes inp.updateRes).fst :
          Except JsError Bool)) = ⟨Except.ok false, 1, [], []⟩ := by
      have := retryGo_ok cfg.maxRetries cfg.retryDelay
        (fun _ => (Except.ok (markUserLoggedIn cfg inp.queryRes inp.updateRes).fst :
          Except JsError Bool)) cfg.maxRetries
        (markUserLoggedIn cfg inp.queryRes inp.updateRes).fst rfl
      rw [retryOperation, this, hmk]
    have key2 : retryOperation cfg.maxRetries cfg.retryDelay (fun k =>
        match inp.upsert k with
        | none => Except.ok ()
        | some e2 => Except.error (JsError.backend e2)) = ⟨Except.ok (), 1, [], []⟩ :=
      retryGo_ok cfg.maxRetries cfg.retryDelay _ cfg.maxRetries () (by rw [hup])
    simp [userLogin, usernameFalsy, hne, hu2, hFL, key1, key2]

/-- Concrete check of `markUserLoggedIn_spec`: a failed identity read yields
`false` from the check and `isFirstLogin = false` from `userLogin`. -/
theorem markUserLoggedIn_spec_witness :
    (QueryRes.err 1 = QueryRes.err 1 ∧
      (markUserLoggedIn { enableFirstLoginTracking := true }
        (QueryRes.err 1) UpdateRes.ok).fst = false) ∧
    (userLogin { enableFirstLoginTracking := true }
        ⟨some "frank", QueryRes.err 1, UpdateRes.ok, fun _ => none, 0⟩
        initState).result = Except.ok ⟨false⟩ :=
  ⟨⟨rfl,
    (markUserLoggedIn_spec { enableFirstLoginTracking := true } (QueryRes.err 1)
      UpdateRes.ok ⟨some "frank", QueryRes.err 1, UpdateRes.ok, fun _ => none, 0⟩
      initState "frank").1 1 rfl⟩,
    (markUserLoggedIn_spec { enableFirstLoginTracking := true } (QueryRes.err 1)
      UpdateRes.ok ⟨some "frank", QueryRes.err 1, UpdateRes.ok, fun _ => none, 0⟩
      initState "frank").2.2.2.2.2 1 rfl (by decide) rfl rfl (fun k => rfl)⟩
